import Mathlib

/-!
# gcon: dial-option assembly and TLS resolution

A shallow embedding of `config.go` of `worldline-go/gcon`.

The package is a thin translator from a configuration value to calls into three
external libraries (`tlscfg`, `grpc`, `context`).  Values handed to those libraries are
modelled as plain data (the constructor records which library function produced the value
and with which arguments); the two library calls that compute something the package cannot
see (`tlscfg.New`, `grpc.DialContext`) are parameters collected in `Env`.  Every function
returns, next to its Go result, the list of calls it made, in order, so that statements
about what is or is not invoked can be expressed.

A Go result pair `(v, nil)` is `Except.ok v`, a pair `(nil, err)` is `Except.error err`.
-/

namespace gcon

/-- Go `time.Duration`: a signed count of nanoseconds. No arithmetic is done on it here. -/
abbrev Duration := Int

/-- Go `error` values that occur in the package. -/
inductive GoError where
  /-- Value `fmt.Errorf(format)` with no verb in the format. -/
  | errorf (format : String)
  /-- Value `fmt.Errorf(format, err)` where `format` ends with the `%w` verb. -/
  | wrapf (format : String) (err : GoError)
  /-- An error value created inside an external library. -/
  | external (text : String)
  deriving DecidableEq, Repr

/-- Go `errors.Unwrap`. -/
def GoError.Unwrap : GoError → Option GoError
  | .wrapf _ err => some err
  | _ => none

/-- Type `tlscfg.ForKind`. -/
inductive tlscfg.ForKind where
  | ForClient
  | ForServer
  deriving DecidableEq, Repr

/-- The `tlscfg.Opt` values the package can build. -/
inductive tlscfg.Opt where
  | WithDiskKeyPair (certPath keyPath : String)
  | WithSystemCertPool
  | WithDiskCA (path : String) (forKind : tlscfg.ForKind)
  deriving DecidableEq, Repr

/-- The fields of `crypto/tls.Config` that matter to the package: the two it writes
(`InsecureSkipVerify`, `ServerName`) and the two the certificate options fill. -/
structure tls.Config where
  Certificates : List String
  RootCAs : List String
  InsecureSkipVerify : Bool
  ServerName : String
  deriving DecidableEq, Repr

/-- Go `context.Context`, as the tree of derivations from the background context. -/
inductive context.Context where
  | Background
  | WithCancel (parent : context.Context)
  | WithTimeout (parent : context.Context) (timeout : Duration)
  deriving DecidableEq, Repr

/-- gRPC `credentials.TransportCredentials`. -/
inductive credentials.TransportCredentials where
  /-- Value `credentials.NewTLS(cfg)`. -/
  | NewTLS (cfg : tls.Config)
  /-- Value `insecure.NewCredentials()`. -/
  | insecureNewCredentials
  deriving DecidableEq, Repr

/-- gRPC `grpc.DialOption`: the three the package builds, and any other one a caller of
`Dial` may pass. -/
inductive grpc.DialOption where
  | WithAuthority (a : String)
  | WithTransportCredentials (creds : credentials.TransportCredentials)
  | WithBlock
  | other (name : String)
  deriving DecidableEq, Repr

/-- gRPC `*grpc.ClientConn`, a connection handle. -/
structure grpc.ClientConn where
  id : Nat
  deriving DecidableEq, Repr

/-- The `TLSConfig` struct. -/
structure TLSConfig where
  Enabled : Bool
  InsecureSkipVerify : Bool
  CertFile : String
  KeyFile : String
  CAFile : String
  ServerName : String
  deriving DecidableEq, Repr

/-- The `Config` struct. -/
structure Config where
  Target : String
  Authority : String
  TLS : TLSConfig
  Block : Bool
  DialTimeout : Duration
  deriving DecidableEq, Repr

/-- The external calls whose result the package does not determine. -/
structure Env where
  /-- Call `tlscfg.New(opts...)`. -/
  tlscfgNew : List tlscfg.Opt → Except GoError tls.Config
  /-- Call `grpc.DialContext(ctx, target, opts...)`. -/
  grpcDialContext : context.Context → String → List grpc.DialOption →
    Except GoError grpc.ClientConn

/-- One entry of the call log. -/
inductive Event where
  /-- Entry into `TLSConfig.Generate`. -/
  | Generate (t : TLSConfig)
  /-- A call `tlscfg.New(opts...)`. -/
  | tlscfgNew (opts : List tlscfg.Opt)
  /-- A call `grpc.DialContext(ctx, target, opts...)`. -/
  | grpcDialContext (ctx : context.Context) (target : String) (opts : List grpc.DialOption)
  /-- The deferred `cancel()` of the context derived in `Dial`. -/
  | cancel (ctx : context.Context)
  deriving DecidableEq, Repr

/-- Method `func (t TLSConfig) Generate() (*tls.Config, error)`. -/
def TLSConfig.Generate (env : Env) (t : TLSConfig) : Except GoError tls.Config × List Event :=
  let log : List Event := [Event.Generate t]
  if !t.Enabled then
    (.error (.errorf "TLS is not enabled"), log)
  else
    let opts : List tlscfg.Opt := []
    -- load client cert
    let opts :=
      if t.CertFile != "" && t.KeyFile != "" then
        opts ++ [tlscfg.Opt.WithDiskKeyPair t.CertFile t.KeyFile]
      else opts
    -- load CA cert
    let opts := opts ++ [tlscfg.Opt.WithSystemCertPool]
    let opts :=
      if t.CAFile != "" then
        opts ++ [tlscfg.Opt.WithDiskCA t.CAFile tlscfg.ForKind.ForClient]
      else opts
    let log := log ++ [Event.tlscfgNew opts]
    match env.tlscfgNew opts with
    | .error err => (.error err, log)
    | .ok cfg =>
      let cfg := if t.InsecureSkipVerify then { cfg with InsecureSkipVerify := true } else cfg
      let cfg := if t.ServerName != "" then { cfg with ServerName := t.ServerName } else cfg
      (.ok cfg, log)

/-- Method `func (c Config) Options() ([]grpc.DialOption, error)`. -/
def Config.Options (env : Env) (c : Config) :
    Except GoError (List grpc.DialOption) × List Event :=
  let opts : List grpc.DialOption := []
  let opts :=
    if c.Authority != "" then opts ++ [grpc.DialOption.WithAuthority c.Authority] else opts
  let step : Except GoError (List grpc.DialOption) × List Event :=
    if c.TLS.Enabled then
      match c.TLS.Generate env with
      | (.error err, log) => (.error (.wrapf "failed to generate TLS config: %w" err), log)
      | (.ok tlsCfg, log) =>
        (.ok (opts ++ [grpc.DialOption.WithTransportCredentials (.NewTLS tlsCfg)]), log)
    else
      (.ok (opts ++ [grpc.DialOption.WithTransportCredentials .insecureNewCredentials]), [])
  match step with
  | (.error err, log) => (.error err, log)
  | (.ok opts, log) =>
    let opts := if c.Block then opts ++ [grpc.DialOption.WithBlock] else opts
    (.ok opts, log)

/-- Method `func (c Config) Dial(ctx context.Context, opts ...grpc.DialOption)
(*grpc.ClientConn, error)`. -/
def Config.Dial (env : Env) (c : Config) (ctx : context.Context)
    (opts : List grpc.DialOption) : Except GoError grpc.ClientConn × List Event :=
  match c.Options env with
  | (.error err, log) => (.error (.wrapf "failed to get dial options: %w" err), log)
  | (.ok options, log) =>
    let opts := options ++ opts
    if c.DialTimeout > 0 then
      let ctx := context.Context.WithTimeout ctx c.DialTimeout
      (env.grpcDialContext ctx c.Target opts,
        log ++ [Event.grpcDialContext ctx c.Target opts, Event.cancel ctx])
    else
      (env.grpcDialContext ctx c.Target opts, log ++ [Event.grpcDialContext ctx c.Target opts])

/-- Whether a dial option is a transport-credentials option. -/
def grpc.DialOption.isTransportCredentials : grpc.DialOption → Bool
  | .WithTransportCredentials _ => true
  | _ => false

/-- Whether a log entry is a call to the connect primitive. -/
def Event.isDial : Event → Bool
  | .grpcDialContext _ _ _ => true
  | _ => false

/-- The authority part of the list `Options` builds. -/
def Config.authorityPart (c : Config) : List grpc.DialOption :=
  if c.Authority ≠ "" then [grpc.DialOption.WithAuthority c.Authority] else []

/-- The blocking part of the list `Options` builds. -/
def Config.blockPart (c : Config) : List grpc.DialOption :=
  if c.Block = true then [grpc.DialOption.WithBlock] else []

/-- A certificate library in which every load succeeds and yields an empty configuration,
and a transport that always connects. -/
def envOk : Env where
  tlscfgNew := fun _ => .ok { Certificates := [], RootCAs := ["system"],
                              InsecureSkipVerify := false, ServerName := "" }
  grpcDialContext := fun _ _ _ => .ok { id := 1 }

/-- A certificate library in which every load fails with a bare library error. -/
def envFail : Env where
  tlscfgNew := fun _ => .error (.external "open ca.pem: no such file or directory")
  grpcDialContext := fun _ _ _ => .ok { id := 1 }

/-- The target of `TestConfig` with TLS switched off, certificate paths left in place. -/
def cfgPlain : Config where
  Target := "localhost:50051"
  Authority := ""
  TLS := { Enabled := false, InsecureSkipVerify := false, CertFile := "client.pem",
           KeyFile := "", CAFile := "ca.pem", ServerName := "" }
  Block := true
  DialTimeout := 5000000000

/-- The target of `TestConfig` with TLS on, skip-verification on, a certificate path without
its key, a CA file and an authority override. -/
def cfgTLS : Config where
  Target := "localhost:50051"
  Authority := "example.org"
  TLS := { Enabled := true, InsecureSkipVerify := true, CertFile := "client.pem",
           KeyFile := "", CAFile := "ca.pem", ServerName := "" }
  Block := true
  DialTimeout := 5000000000

/-- The context `envOk` yields for `cfgTLS.TLS` once `Generate` has set its two fields. -/
def tlsCtxTLS : tls.Config where
  Certificates := []
  RootCAs := ["system"]
  InsecureSkipVerify := true
  ServerName := ""

/-- The option list of `cfgTLS` under `envOk`. -/
def optsTLS : List grpc.DialOption :=
  [grpc.DialOption.WithAuthority "example.org",
   grpc.DialOption.WithTransportCredentials (.NewTLS tlsCtxTLS),
   grpc.DialOption.WithBlock]

/-! ## Characterisation lemmas -/

/-- The options `Generate` hands to `tlscfg.New`, as one expression. -/
theorem Generate_enabled (env : Env) (t : TLSConfig) (h : t.Enabled = true) :
    ∃ opts : List tlscfg.Opt,
      opts = (if t.CertFile ≠ "" ∧ t.KeyFile ≠ "" then
                [tlscfg.Opt.WithDiskKeyPair t.CertFile t.KeyFile] else []) ++
              [tlscfg.Opt.WithSystemCertPool] ++
              (if t.CAFile ≠ "" then
                [tlscfg.Opt.WithDiskCA t.CAFile tlscfg.ForKind.ForClient] else []) ∧
      (t.Generate env).2 = [Event.Generate t, Event.tlscfgNew opts] ∧
      (t.Generate env).1 =
        (match env.tlscfgNew opts with
         | .error err => .error err
         | .ok cfg =>
           .ok { cfg with
                 InsecureSkipVerify := if t.InsecureSkipVerify then true
                                       else cfg.InsecureSkipVerify,
                 ServerName := if t.ServerName ≠ "" then t.ServerName else cfg.ServerName }) := by
  refine ⟨_, rfl, ?_, ?_⟩
  · simp only [TLSConfig.Generate, h]
    by_cases h1 : t.CertFile = "" <;> by_cases h2 : t.KeyFile = "" <;>
      by_cases h3 : t.CAFile = "" <;> simp [h1, h2, h3] <;>
      cases env.tlscfgNew _ <;> rfl
  · simp only [TLSConfig.Generate, h]
    by_cases h1 : t.CertFile = "" <;> by_cases h2 : t.KeyFile = "" <;>
      by_cases h3 : t.CAFile = "" <;> simp [h1, h2, h3] <;>
      cases env.tlscfgNew _ <;> simp <;>
      by_cases h4 : t.InsecureSkipVerify = true <;> by_cases h5 : t.ServerName = "" <;>
      simp [h4, h5]

/-- Method `Options` as one expression over the outcome of `Generate`. -/
theorem Options_eq (env : Env) (c : Config) :
    c.Options env =
      if c.TLS.Enabled = true then
        match (c.TLS.Generate env).1 with
        | .error err =>
          (.error (.wrapf "failed to generate TLS config: %w" err), (c.TLS.Generate env).2)
        | .ok cfg =>
          (.ok (c.authorityPart ++ [grpc.DialOption.WithTransportCredentials (.NewTLS cfg)] ++
                c.blockPart), (c.TLS.Generate env).2)
      else
        (.ok (c.authorityPart ++
              [grpc.DialOption.WithTransportCredentials .insecureNewCredentials] ++
              c.blockPart), []) := by
  unfold Config.Options Config.authorityPart Config.blockPart
  by_cases hE : c.TLS.Enabled = true
  · simp only [hE, if_true]
    rcases hG : c.TLS.Generate env with ⟨r, log⟩
    cases r with
    | error err => simp
    | ok cfg =>
      by_cases hA : c.Authority = "" <;> by_cases hB : c.Block = true <;> simp [hA, hB]
  · simp only [hE]
    by_cases hA : c.Authority = "" <;> by_cases hB : c.Block = true <;> simp [hA, hB]

/-- Method `Dial` as one expression over a successful outcome of `Options`. -/
theorem Dial_eq (env : Env) (c : Config) (ctx : context.Context)
    (extra L : List grpc.DialOption) (h : (c.Options env).1 = .ok L) :
    c.Dial env ctx extra =
      if c.DialTimeout > 0 then
        (env.grpcDialContext (.WithTimeout ctx c.DialTimeout) c.Target (L ++ extra),
          (c.Options env).2 ++
            [Event.grpcDialContext (.WithTimeout ctx c.DialTimeout) c.Target (L ++ extra),
             Event.cancel (.WithTimeout ctx c.DialTimeout)])
      else
        (env.grpcDialContext ctx c.Target (L ++ extra),
          (c.Options env).2 ++ [Event.grpcDialContext ctx c.Target (L ++ extra)]) := by
  unfold Config.Dial
  rcases hO : c.Options env with ⟨r, log⟩
  rw [hO] at h
  simp only at h
  subst h
  simp only

/-- The log of `Options` holds no call to the connect primitive. -/
theorem Options_log_noDial (env : Env) (c : Config) :
    (c.Options env).2.filter Event.isDial = [] := by
  rw [Options_eq]
  by_cases hE : c.TLS.Enabled = true
  · obtain ⟨opts, -, hlog, -⟩ := Generate_enabled env c.TLS hE
    simp only [hE, if_true]
    cases (c.TLS.Generate env).1 <;> simp [hlog, Event.isDial]
  · simp [hE]

/-! ## Dial-option assembly -/

/-- C1: with `TLS.Enabled = false`, whatever the other fields, `Options` succeeds, its call
log is empty (no entry into `Generate`, no call of the certificate library), and the only
transport-credentials option of the returned list is the insecure credentials. -/
theorem options_tls_disabled (env : Env) (c : Config) (h : c.TLS.Enabled = false) :
    ∃ L : List grpc.DialOption,
      c.Options env = (.ok L, []) ∧
      L.filter grpc.DialOption.isTransportCredentials =
        [grpc.DialOption.WithTransportCredentials .insecureNewCredentials] := by
  refine ⟨c.authorityPart ++
    [grpc.DialOption.WithTransportCredentials .insecureNewCredentials] ++ c.blockPart, ?_, ?_⟩
  · rw [Options_eq]
    simp only [h, Bool.false_eq_true, if_false]
  · unfold Config.authorityPart Config.blockPart
    by_cases hA : c.Authority = "" <;> by_cases hB : c.Block = true <;>
      simp [hA, hB, grpc.DialOption.isTransportCredentials]

/-- C1 at `cfgPlain`, which carries certificate and CA paths. -/
theorem options_tls_disabled_witness :
    cfgPlain.TLS.Enabled = false ∧
    ∃ L : List grpc.DialOption,
      cfgPlain.Options envFail = (.ok L, []) ∧
      L.filter grpc.DialOption.isTransportCredentials =
        [grpc.DialOption.WithTransportCredentials .insecureNewCredentials] :=
  ⟨rfl, options_tls_disabled envFail cfgPlain rfl⟩

/-- C2: when `Options` succeeds with list `L`, then `L` is the authority override (present
exactly when `Authority` is non-empty), then one transport-credentials option, then the
blocking flag (present exactly when `Block` is true), and nothing else; its length is
between 1 and 3. -/
theorem options_shape (env : Env) (c : Config) (L : List grpc.DialOption)
    (h : (c.Options env).1 = .ok L) :
    ∃ creds : credentials.TransportCredentials,
      L = (if c.Authority = "" then [] else [grpc.DialOption.WithAuthority c.Authority]) ++
          [grpc.DialOption.WithTransportCredentials creds] ++
          (if c.Block = true then [grpc.DialOption.WithBlock] else []) ∧
      1 ≤ L.length ∧ L.length ≤ 3 := by
  rw [Options_eq] at h
  have key : ∀ creds : credentials.TransportCredentials,
      L = c.authorityPart ++ [grpc.DialOption.WithTransportCredentials creds] ++ c.blockPart →
      L = (if c.Authority = "" then [] else [grpc.DialOption.WithAuthority c.Authority]) ++
          [grpc.DialOption.WithTransportCredentials creds] ++
          (if c.Block = true then [grpc.DialOption.WithBlock] else []) ∧
      1 ≤ L.length ∧ L.length ≤ 3 := by
    intro creds hL
    subst hL
    unfold Config.authorityPart Config.blockPart
    by_cases hA : c.Authority = "" <;> by_cases hB : c.Block = true <;> simp [hA, hB]
  by_cases hE : c.TLS.Enabled = true
  · rw [if_pos hE] at h
    cases hG : (c.TLS.Generate env).1 with
    | error err => rw [hG] at h; simp at h
    | ok cfg =>
      rw [hG] at h
      simp only [Except.ok.injEq] at h
      exact ⟨_, key _ h.symm⟩
  · rw [if_neg hE] at h
    simp only [Except.ok.injEq] at h
    exact ⟨_, key _ h.symm⟩

/-- C2 at `cfgTLS` with a certificate library that succeeds: three options. -/
theorem options_shape_witness :
    (cfgTLS.Options envOk).1 = .ok optsTLS ∧
    ∃ creds : credentials.TransportCredentials,
      optsTLS =
          (if cfgTLS.Authority = "" then []
           else [grpc.DialOption.WithAuthority cfgTLS.Authority]) ++
          [grpc.DialOption.WithTransportCredentials creds] ++
          (if cfgTLS.Block = true then [grpc.DialOption.WithBlock] else []) ∧
      1 ≤ optsTLS.length ∧ optsTLS.length ≤ 3 :=
  ⟨rfl, options_shape envOk cfgTLS optsTLS rfl⟩

/-- C3: with `TLS.Enabled = true`, a failure `err` of `Generate` makes `Options` return the
error `fmt.Errorf("failed to generate TLS config: %w", err)`, which unwraps to `err`, and
no list; a context `cfg` from `Generate` makes `Options` succeed with a list whose only
transport-credentials option is `credentials.NewTLS(cfg)`. -/
theorem options_tls_enabled (env : Env) (c : Config) (h : c.TLS.Enabled = true) :
    (∀ err : GoError, (c.TLS.Generate env).1 = .error err →
      (c.Options env).1 = .error (.wrapf "failed to generate TLS config: %w" err) ∧
      GoError.Unwrap (.wrapf "failed to generate TLS config: %w" err) = some err) ∧
    (∀ cfg : tls.Config, (c.TLS.Generate env).1 = .ok cfg →
      ∃ L : List grpc.DialOption,
        (c.Options env).1 = .ok L ∧
        L.filter grpc.DialOption.isTransportCredentials =
          [grpc.DialOption.WithTransportCredentials (.NewTLS cfg)]) := by
  constructor
  · intro err hG
    rw [Options_eq, if_pos h, hG]
    exact ⟨rfl, rfl⟩
  · intro cfg hG
    refine ⟨c.authorityPart ++ [grpc.DialOption.WithTransportCredentials (.NewTLS cfg)] ++
      c.blockPart, ?_, ?_⟩
    · rw [Options_eq, if_pos h, hG]
    · unfold Config.authorityPart Config.blockPart
      by_cases hA : c.Authority = "" <;> by_cases hB : c.Block = true <;>
        simp [hA, hB, grpc.DialOption.isTransportCredentials]

/-- C3 at `cfgTLS`, whose `Authority` is non-empty, with a failing certificate library. -/
theorem options_tls_enabled_witness :
    cfgTLS.TLS.Enabled = true ∧
    (cfgTLS.Options envFail).1 =
      .error (.wrapf "failed to generate TLS config: %w"
        (.external "open ca.pem: no such file or directory")) :=
  ⟨rfl, ((options_tls_enabled envFail cfgTLS rfl).1 _ rfl).1⟩

/-! ## TLS resolution -/

/-- C4: with `Enabled = false`, whatever the other fields, `Generate` returns the error
`fmt.Errorf("TLS is not enabled")` and no context, and its call log is its own entry only:
`tlscfg.New` is not called. -/
theorem generate_not_enabled (env : Env) (t : TLSConfig) (h : t.Enabled = false) :
    t.Generate env = (.error (.errorf "TLS is not enabled"), [Event.Generate t]) := by
  simp [TLSConfig.Generate, h]

/-- C4 at the TLS settings of `cfgPlain`, under a certificate library that would succeed. -/
theorem generate_not_enabled_witness :
    cfgPlain.TLS.Enabled = false ∧
    cfgPlain.TLS.Generate envOk =
      (.error (.errorf "TLS is not enabled"), [Event.Generate cfgPlain.TLS]) :=
  ⟨rfl, generate_not_enabled envOk cfgPlain.TLS rfl⟩

/-- C5: with `Enabled = true`, `Generate` calls `tlscfg.New` once, and a disk key pair is
among the options of that call exactly when `CertFile` and `KeyFile` are both non-empty, in
which case it is the pair `(CertFile, KeyFile)`; when one of the two is empty, the result of
`Generate` and the options it hands to `tlscfg.New` are those of the same settings with both
paths empty. -/
theorem generate_key_pair (env : Env) (t : TLSConfig) (h : t.Enabled = true) :
    ∃ opts : List tlscfg.Opt,
      (t.Generate env).2 = [Event.Generate t, Event.tlscfgNew opts] ∧
      (∀ cp kp : String, tlscfg.Opt.WithDiskKeyPair cp kp ∈ opts ↔
        (cp = t.CertFile ∧ kp = t.KeyFile ∧ t.CertFile ≠ "" ∧ t.KeyFile ≠ "")) ∧
      ((t.CertFile = "" ∨ t.KeyFile = "") →
        (t.Generate env).1 =
          (TLSConfig.Generate env { t with CertFile := "", KeyFile := "" }).1 ∧
        (TLSConfig.Generate env { t with CertFile := "", KeyFile := "" }).2 =
          [Event.Generate { t with CertFile := "", KeyFile := "" }, Event.tlscfgNew opts]) := by
  obtain ⟨opts, hopts, hlog, hres⟩ := Generate_enabled env t h
  refine ⟨opts, hlog, ?_, ?_⟩
  · intro cp kp
    subst hopts
    by_cases h1 : t.CertFile = "" <;> by_cases h2 : t.KeyFile = "" <;>
      by_cases h3 : t.CAFile = "" <;> simp [h1, h2, h3]
  · intro hmis
    obtain ⟨opts2, hopts2, hlog2, hres2⟩ :=
      Generate_enabled env { t with CertFile := "", KeyFile := "" } h
    have hsame : opts2 = opts := by
      subst hopts hopts2
      rcases hmis with h1 | h2
      · simp [h1]
      · simp [h2]
    subst hsame
    exact ⟨by rw [hres, hres2], hlog2⟩

/-- C5 at the settings of `cfgTLS`: a certificate path without a key. -/
theorem generate_key_pair_witness :
    cfgTLS.TLS.Enabled = true ∧
    ∃ opts : List tlscfg.Opt,
      (cfgTLS.TLS.Generate envOk).2 = [Event.Generate cfgTLS.TLS, Event.tlscfgNew opts] ∧
      (∀ cp kp : String, tlscfg.Opt.WithDiskKeyPair cp kp ∈ opts ↔
        (cp = cfgTLS.TLS.CertFile ∧ kp = cfgTLS.TLS.KeyFile ∧
          cfgTLS.TLS.CertFile ≠ "" ∧ cfgTLS.TLS.KeyFile ≠ "")) ∧
      ((cfgTLS.TLS.CertFile = "" ∨ cfgTLS.TLS.KeyFile = "") →
        (cfgTLS.TLS.Generate envOk).1 =
          (TLSConfig.Generate envOk { cfgTLS.TLS with CertFile := "", KeyFile := "" }).1 ∧
        (TLSConfig.Generate envOk { cfgTLS.TLS with CertFile := "", KeyFile := "" }).2 =
          [Event.Generate { cfgTLS.TLS with CertFile := "", KeyFile := "" },
           Event.tlscfgNew opts]) :=
  ⟨rfl, generate_key_pair envOk cfgTLS.TLS rfl⟩

/-- C6: with `Enabled = true`, the options `Generate` hands to `tlscfg.New` always hold
the system certificate pool; they hold a disk CA exactly when `CAFile` is non-empty, and
then it is `CAFile` for client use, placed right after the system pool, as the last option. -/
theorem generate_trust_store (env : Env) (t : TLSConfig) (h : t.Enabled = true) :
    ∃ opts : List tlscfg.Opt,
      (t.Generate env).2 = [Event.Generate t, Event.tlscfgNew opts] ∧
      tlscfg.Opt.WithSystemCertPool ∈ opts ∧
      (∀ (path : String) (k : tlscfg.ForKind), tlscfg.Opt.WithDiskCA path k ∈ opts ↔
        (path = t.CAFile ∧ k = tlscfg.ForKind.ForClient ∧ t.CAFile ≠ "")) ∧
      (t.CAFile ≠ "" → ∃ front : List tlscfg.Opt,
        opts = front ++ [tlscfg.Opt.WithSystemCertPool,
                         tlscfg.Opt.WithDiskCA t.CAFile tlscfg.ForKind.ForClient]) := by
  obtain ⟨opts, hopts, hlog, -⟩ := Generate_enabled env t h
  refine ⟨opts, hlog, ?_, ?_, ?_⟩
  · subst hopts
    simp
  · intro path k
    subst hopts
    by_cases h1 : t.CertFile = "" <;> by_cases h2 : t.KeyFile = "" <;>
      by_cases h3 : t.CAFile = "" <;> simp [h1, h2, h3]
  · intro hCA
    refine ⟨if t.CertFile ≠ "" ∧ t.KeyFile ≠ "" then
      [tlscfg.Opt.WithDiskKeyPair t.CertFile t.KeyFile] else [], ?_⟩
    subst hopts
    simp [hCA]

/-- C6 at the settings of `cfgTLS`, which name a CA file. -/
theorem generate_trust_store_witness :
    cfgTLS.TLS.Enabled = true ∧
    ∃ opts : List tlscfg.Opt,
      (cfgTLS.TLS.Generate envOk).2 = [Event.Generate cfgTLS.TLS, Event.tlscfgNew opts] ∧
      tlscfg.Opt.WithSystemCertPool ∈ opts ∧
      (∀ (path : String) (k : tlscfg.ForKind), tlscfg.Opt.WithDiskCA path k ∈ opts ↔
        (path = cfgTLS.TLS.CAFile ∧ k = tlscfg.ForKind.ForClient ∧ cfgTLS.TLS.CAFile ≠ "")) ∧
      (cfgTLS.TLS.CAFile ≠ "" → ∃ front : List tlscfg.Opt,
        opts = front ++ [tlscfg.Opt.WithSystemCertPool,
                         tlscfg.Opt.WithDiskCA cfgTLS.TLS.CAFile tlscfg.ForKind.ForClient]) :=
  ⟨rfl, generate_trust_store envOk cfgTLS.TLS rfl⟩

/-- C7: with `Enabled = true` and `InsecureSkipVerify = true`, every context `Generate`
returns has `InsecureSkipVerify` set, whatever `CertFile`, `KeyFile`, `CAFile` and
`ServerName` are and whatever the certificate library put in that field. -/
theorem generate_skip_verify (env : Env) (t : TLSConfig) (cfg : tls.Config)
    (hE : t.Enabled = true) (hS : t.InsecureSkipVerify = true)
    (hG : (t.Generate env).1 = .ok cfg) : cfg.InsecureSkipVerify = true := by
  obtain ⟨opts, -, -, hres⟩ := Generate_enabled env t hE
  rw [hres] at hG
  cases hN : env.tlscfgNew opts with
  | error err => rw [hN] at hG; simp at hG
  | ok cfg0 =>
    rw [hN] at hG
    simp only [Except.ok.injEq] at hG
    rw [← hG]
    simp [hS]

/-- C7 at the settings of `cfgTLS`: the library returns a context with verification on,
`Generate` returns it with verification off. -/
theorem generate_skip_verify_witness :
    cfgTLS.TLS.Enabled = true ∧ cfgTLS.TLS.InsecureSkipVerify = true ∧
    (cfgTLS.TLS.Generate envOk).1 = .ok tlsCtxTLS ∧ tlsCtxTLS.InsecureSkipVerify = true :=
  ⟨rfl, rfl, rfl, generate_skip_verify envOk cfgTLS.TLS tlsCtxTLS rfl rfl rfl⟩

/-- Pass-through of library errors: with `Enabled = true`, when the call of `tlscfg.New`
that `Generate` makes fails with `err`, `Generate` returns `err` itself and no context.
What `err` contains is decided by the certificate library. -/
theorem Generate_library_error (env : Env) (t : TLSConfig) (opts : List tlscfg.Opt)
    (err : GoError) (hE : t.Enabled = true)
    (hcall : Event.tlscfgNew opts ∈ (t.Generate env).2)
    (hfail : env.tlscfgNew opts = .error err) :
    (t.Generate env).1 = .error err := by
  obtain ⟨opts0, -, hlog, hres⟩ := Generate_enabled env t hE
  rw [hlog] at hcall
  simp at hcall
  subst hcall
  rw [hres, hfail]

/-! ## Dial -/

/-- C8: when `Options` succeeds, `Dial` with `DialTimeout = 0` calls the connect primitive
with the caller's context itself and derives nothing (no cancel is logged); with
`DialTimeout > 0` it calls it with `context.WithTimeout(ctx, DialTimeout)`, and cancels
that context afterwards. -/
theorem dial_context (env : Env) (c : Config) (ctx : context.Context)
    (extra L : List grpc.DialOption) (h : (c.Options env).1 = .ok L) :
    (c.DialTimeout = 0 →
      c.Dial env ctx extra =
        (env.grpcDialContext ctx c.Target (L ++ extra),
         (c.Options env).2 ++ [Event.grpcDialContext ctx c.Target (L ++ extra)])) ∧
    (c.DialTimeout > 0 →
      c.Dial env ctx extra =
        (env.grpcDialContext (.WithTimeout ctx c.DialTimeout) c.Target (L ++ extra),
         (c.Options env).2 ++
           [Event.grpcDialContext (.WithTimeout ctx c.DialTimeout) c.Target (L ++ extra),
            Event.cancel (.WithTimeout ctx c.DialTimeout)])) := by
  constructor
  · intro h0
    rw [Dial_eq env c ctx extra L h, if_neg (by rw [h0]; decide)]
  · intro hpos
    rw [Dial_eq env c ctx extra L h, if_pos hpos]

/-- C8 at `cfgTLS`, whose timeout is five seconds. -/
theorem dial_context_witness :
    (cfgTLS.Options envOk).1 = .ok optsTLS ∧
    (cfgTLS.Dial envOk .Background []).2.filter Event.isDial =
      [Event.grpcDialContext (.WithTimeout .Background 5000000000) "localhost:50051"
        optsTLS] :=
  ⟨rfl, by
    rw [(dial_context envOk cfgTLS .Background [] optsTLS rfl).2 (by decide)]
    decide⟩

/-- C9: when `Options` succeeds with `L`, `Dial` called with extra options `E` calls the
connect primitive exactly once, with target `Target` and the option list `L ++ E`, and
returns what that call returns. -/
theorem dial_options (env : Env) (c : Config) (ctx : context.Context)
    (E L : List grpc.DialOption) (h : (c.Options env).1 = .ok L) :
    ∃ ctx2 : context.Context,
      (c.Dial env ctx E).1 = env.grpcDialContext ctx2 c.Target (L ++ E) ∧
      (c.Dial env ctx E).2.filter Event.isDial =
        [Event.grpcDialContext ctx2 c.Target (L ++ E)] := by
  rw [Dial_eq env c ctx E L h]
  by_cases hpos : c.DialTimeout > 0
  · rw [if_pos hpos]
    refine ⟨.WithTimeout ctx c.DialTimeout, rfl, ?_⟩
    simp [List.filter_append, Options_log_noDial, Event.isDial]
  · rw [if_neg hpos]
    refine ⟨ctx, rfl, ?_⟩
    simp [List.filter_append, Options_log_noDial, Event.isDial]

/-- C9 at `cfgTLS` with one caller option. -/
theorem dial_options_witness :
    (cfgTLS.Options envOk).1 = .ok optsTLS ∧
    ∃ ctx2 : context.Context,
      (cfgTLS.Dial envOk .Background [grpc.DialOption.other "WithUserAgent"]).1 =
        envOk.grpcDialContext ctx2 cfgTLS.Target
          (optsTLS ++ [grpc.DialOption.other "WithUserAgent"]) ∧
      (cfgTLS.Dial envOk .Background [grpc.DialOption.other "WithUserAgent"]).2.filter
          Event.isDial =
        [Event.grpcDialContext ctx2 cfgTLS.Target
          (optsTLS ++ [grpc.DialOption.other "WithUserAgent"])] :=
  ⟨rfl, dial_options envOk cfgTLS .Background [grpc.DialOption.other "WithUserAgent"]
    optsTLS rfl⟩

end gcon
